import Mathlib

/-!
Verification development for the SafeNSound drone HUD script
(src/SafeNSound.py): a shallow embedding of its refresh logic —
the nearest-airport query, the per-source update functions of the
HUD, the weather fetch, the location-based startup guard and the
periodic update cycle — together with theorems settling the
specification's claims about them.

Python floats are modelled as rationals (ℚ); the external
geopy geodesic routine is abstracted as an arbitrary distance
function parameter, and separately modelled from the spec as the
haversine formula over ℝ for the end-to-end distance scenario.
Python's stable in-place sort is modelled by the stable mergeSort
of the Lean core library.
-/

/-- Airport record as built in the main block of SafeNSound.py:
a dict with keys name, iata_code and location (a latitude/longitude
pair of floats). -/
structure Airport where
  name : String
  iata_code : String
  location : ℚ × ℚ
deriving DecidableEq

/-- Python list slicing l[:k] for an integer k: for nonnegative k the
first k elements, for negative k all but the last |k| elements. -/
def pySlice {α : Type} (k : Int) (l : List α) : List α :=
  if k < 0 then l.take ((l.length + k).toNat) else l.take k.toNat

/-- Embedding of find_nearest_airports (src/SafeNSound.py lines 32-51).
The external call geopy.distance.geodesic(...).km is abstracted as the
parameter dist; the for-loop building airport_distances is the map, the
in-place stable airport_distances.sort(key=lambda x: x[1]) is the stable
mergeSort on the distance component, and the trailing
airport_distances[:num_airports] (default 5) is the Python slice. -/
def find_nearest_airports {α : Type} [LinearOrder α] (dist : ℚ × ℚ → ℚ × ℚ → α)
    (user_lat user_lon : ℚ) (airports : List Airport)
    (num_airports : Int) : List (Airport × α) :=
  let airport_distances :=
    airports.map (fun airport => (airport, dist (user_lat, user_lon) airport.location))
  let sorted := airport_distances.mergeSort (fun x y => decide (x.2 ≤ y.2))
  pySlice num_airports sorted

/-- The sort comparison used by find_nearest_airports is transitive. -/
theorem distKeyLe_trans {α : Type} [LinearOrder α] :
    ∀ a b c : Airport × α, (decide (a.2 ≤ b.2)) = true → (decide (b.2 ≤ c.2)) = true →
      (decide (a.2 ≤ c.2)) = true := by
  intro a b c hab hbc
  simp only [decide_eq_true_eq] at *
  exact le_trans hab hbc

/-- The sort comparison used by find_nearest_airports is total. -/
theorem distKeyLe_total {α : Type} [LinearOrder α] :
    ∀ a b : Airport × α, ((decide (a.2 ≤ b.2)) || (decide (b.2 ≤ a.2))) = true := by
  intro a b
  simpa using le_total a.2 b.2

/-- A Python slice of a list is a sublist of it. -/
theorem pySlice_sublist {α : Type} (k : Int) (l : List α) : (pySlice k l).Sublist l := by
  unfold pySlice
  split <;> exact List.take_sublist _ _

/-- C1: for every distance function, every k ≥ 1 and every non-empty
airport dataset, find_nearest_airports returns exactly
min(k, datasetSize) entries, ordered by non-decreasing distance. -/
theorem find_nearest_airports_length_sorted (dist : ℚ × ℚ → ℚ × ℚ → ℚ)
    (user_lat user_lon : ℚ) (airports : List Airport) (num_airports : Int)
    (hk : 1 ≤ num_airports) (hne : airports ≠ []) :
    (find_nearest_airports dist user_lat user_lon airports num_airports).length
        = min num_airports.toNat airports.length
    ∧ List.Pairwise (fun p q : Airport × ℚ => p.2 ≤ q.2)
        (find_nearest_airports dist user_lat user_lon airports num_airports) := by
  have hk0 : ¬ (num_airports < 0) := by omega
  constructor
  · simp [find_nearest_airports, pySlice, hk0, List.length_take,
      List.length_mergeSort, List.length_map]
  · have hsorted := @List.sorted_mergeSort (Airport × ℚ)
      (fun x y : Airport × ℚ => decide (x.2 ≤ y.2))
      distKeyLe_trans distKeyLe_total
      (airports.map (fun airport => (airport, dist (user_lat, user_lon) airport.location)))
    have hsub : (find_nearest_airports dist user_lat user_lon airports num_airports).Sublist
        ((airports.map (fun airport => (airport, dist (user_lat, user_lon) airport.location))).mergeSort
          (fun x y => decide (x.2 ≤ y.2))) := by
      simpa [find_nearest_airports] using
        pySlice_sublist num_airports
          ((airports.map (fun airport => (airport, dist (user_lat, user_lon) airport.location))).mergeSort
            (fun x y => decide (x.2 ≤ y.2)))
    exact (List.Pairwise.sublist hsub hsorted).imp (fun h => by simpa using h)

/-- Witness for C1 at a concrete two-airport dataset with k = 1. -/
theorem find_nearest_airports_length_sorted_witness :
    (1 : Int) ≤ 1
    ∧ ([⟨"A", "AAA", (2, 0)⟩, ⟨"B", "BBB", (1, 0)⟩] : List Airport) ≠ []
    ∧ ((find_nearest_airports (fun _ q => q.1) 0 0
          [⟨"A", "AAA", (2, 0)⟩, ⟨"B", "BBB", (1, 0)⟩] 1).length
          = min (1 : Int).toNat
              ([⟨"A", "AAA", (2, 0)⟩, ⟨"B", "BBB", (1, 0)⟩] : List Airport).length
        ∧ List.Pairwise (fun p q : Airport × ℚ => p.2 ≤ q.2)
            (find_nearest_airports (fun _ q => q.1) 0 0
              [⟨"A", "AAA", (2, 0)⟩, ⟨"B", "BBB", (1, 0)⟩] 1)) :=
  ⟨by decide, by decide,
    find_nearest_airports_length_sorted (fun _ q => q.1) 0 0
      [⟨"A", "AAA", (2, 0)⟩, ⟨"B", "BBB", (1, 0)⟩] 1 (by decide) (by decide)⟩

/-- C4 counterexample: with k = 0 (so k ≤ 0) and an in-range origin,
find_nearest_airports returns the empty list — a normal result — rather
than failing; no InvalidQueryError exists anywhere in the program. -/
theorem find_nearest_airports_k_zero_returns_empty :
    find_nearest_airports (fun _ _ => (0 : ℚ)) 40 (-73)
      [⟨"Test Airfield", "TST", (40, -73)⟩] 0 = [] := by
  simp [find_nearest_airports, pySlice]

/-- C4 amended: the nearest-airport query performs no input validation of
its own; for k = 0 it returns the empty list for every origin and every
dataset (out-of-range origins are not checked by the query either — they
are passed unchanged to the external distance routine). -/
theorem find_nearest_airports_no_validation (dist : ℚ × ℚ → ℚ × ℚ → ℚ)
    (user_lat user_lon : ℚ) (airports : List Airport) :
    find_nearest_airports dist user_lat user_lon airports 0 = [] := by
  simp [find_nearest_airports, pySlice]

/-- C5: the nearest-airport query is deterministic (it is a pure function
of its inputs, so two runs on identical inputs coincide definitionally),
and ties are broken stably: for every distance value v, the returned
entries at distance v form a sublist of the distance-decorated input
dataset restricted to v — that is, equal-distance airports appear in
their dataset insertion order. -/
theorem find_nearest_airports_deterministic_stable (dist : ℚ × ℚ → ℚ × ℚ → ℚ)
    (user_lat user_lon : ℚ) (airports : List Airport) (num_airports : Int) (v : ℚ) :
    find_nearest_airports dist user_lat user_lon airports num_airports
      = find_nearest_airports dist user_lat user_lon airports num_airports
    ∧ ((find_nearest_airports dist user_lat user_lon airports num_airports).filter
          (fun p => decide (p.2 = v))).Sublist
        ((airports.map (fun airport => (airport, dist (user_lat, user_lon) airport.location))).filter
          (fun p => decide (p.2 = v))) := by
  refine ⟨rfl, ?_⟩
  set pairs := airports.map (fun airport => (airport, dist (user_lat, user_lon) airport.location))
    with hpairs
  set le := fun x y : Airport × ℚ => decide (x.2 ≤ y.2) with hle
  set p := fun x : Airport × ℚ => decide (x.2 = v) with hp
  have hmem : ∀ x ∈ pairs.filter p, x.2 = v := by
    intro x hx
    have := List.of_mem_filter hx
    simpa [hp] using this
  have hpw : (pairs.filter p).Pairwise (fun a b => le a b = true) := by
    refine List.pairwise_of_forall_mem_list ?_
    intro a ha b hb
    simp only [hle, decide_eq_true_eq, hmem a ha, hmem b hb, le_refl]
  have h1 : (pairs.filter p).Sublist ((pairs.mergeSort le).filter p) := by
    have hsub : (pairs.filter p).Sublist (pairs.mergeSort le) :=
      List.sublist_mergeSort distKeyLe_trans distKeyLe_total hpw (List.filter_sublist pairs)
    have := hsub.filter p
    simpa [List.filter_filter] using this
  have h2 : ((pairs.mergeSort le).filter p).Perm (pairs.filter p) :=
    (List.mergeSort_perm pairs le).filter p
  have h3 : pairs.filter p = (pairs.mergeSort le).filter p :=
    h1.eq_of_length h2.length_eq.symm
  have h4 : ((find_nearest_airports dist user_lat user_lon airports num_airports).filter p).Sublist
      ((pairs.mergeSort le).filter p) := by
    have : (find_nearest_airports dist user_lat user_lon airports num_airports).Sublist
        (pairs.mergeSort le) := by
      simpa [find_nearest_airports, hpairs, hle] using pySlice_sublist num_airports (pairs.mergeSort le)
    exact this.filter p
  rw [← h3] at h4
  exact h4

/-- JSON leaf value as handled by update_weather: the code only
distinguishes numeric values (isinstance(celsius, (int, float))) from
everything else, so a numeric or string payload suffices. -/
inductive JVal where
  | num (q : ℚ)
  | str (s : String)
deriving DecidableEq

/-- The current_weather sub-dictionary of an Open-Meteo response body:
each field is present (with a numeric or other value) or absent. -/
structure CurrentWeather where
  temperature : Option JVal
  windspeed : Option JVal
deriving DecidableEq

/-- A parsed Open-Meteo response body as consumed by update_weather: the
optional current_weather sub-dictionary, plus a flag recording whether
the dictionary has any other keys (the hourly fields of the request URL),
which decides the body's Python truthiness. -/
structure WeatherBody where
  current_weather : Option CurrentWeather
  has_other_keys : Bool
deriving DecidableEq

/-- Python truthiness of the response dictionary: a dict is truthy iff it
is non-empty. -/
def WeatherBody.truthy (b : WeatherBody) : Bool :=
  b.current_weather.isSome || b.has_other_keys

/-- Outcome of the requests.get call inside get_weather_data: either the
call raises (transport-level failure) or it returns a response with a
status code and a parsed JSON body. -/
inductive HttpResult where
  | exn (msg : String)
  | resp (status : Int) (body : WeatherBody)
deriving DecidableEq

/-- Embedding of get_weather_data (src/SafeNSound.py lines 165-177): a
raised transport exception propagates (the function has no try block); a
200 response returns its parsed body; any other status prints a message
and returns None. -/
def get_weather_data : HttpResult → Except String (Option WeatherBody)
  | .exn m => .error m
  | .resp status body => if status = 200 then .ok (some body) else .ok none

/-- Telemetry dictionary returned by get_telemetry_data
(src/SafeNSound.py lines 148-162). -/
structure Telemetry where
  latitude : ℚ
  longitude : ℚ
  altitude : ℚ
  ground_speed : ℚ
  battery : ℚ
  mode : String
deriving DecidableEq

/-- Contents of the telemetry label after update_telemetry: either the
formatted telemetry text or the message "Error fetching telemetry: {e}"
carrying the caught exception text e. -/
inductive TelemetryLabel where
  | text (t : Telemetry)
  | failure (msg : String)
deriving DecidableEq

/-- Embedding of HUD.update_telemetry (src/SafeNSound.py lines 82-105):
the whole body is wrapped in try/except, so any failure of the telemetry
poll is caught and recorded in the label; nothing propagates. -/
def update_telemetry (poll : Except String Telemetry) : TelemetryLabel :=
  match poll with
  | .ok t => .text t
  | .error e => .failure e

/-- Contents of the weather label after update_weather: either the
formatted current weather (celsius, fahrenheit, wind speed, each possibly
the string "N/A") or the message "Failed to retrieve weather data.". -/
inductive WeatherLabel where
  | display (celsius fahrenheit windspeed : JVal)
  | failure
deriving DecidableEq

/-- The truthy branch of HUD.update_weather (src/SafeNSound.py lines
116-128): current_weather defaults to the empty dict, missing fields
default to "N/A", and Fahrenheit is computed only when Celsius is
numeric. -/
def weather_display_of (b : WeatherBody) : WeatherLabel :=
  let current_weather := b.current_weather.getD ⟨none, none⟩
  let celsius := current_weather.temperature.getD (.str "N/A")
  let fahrenheit : JVal := match celsius with
    | .num c => .num (c * 9 / 5 + 32)
    | .str _ => .str "N/A"
  let wind_speed := current_weather.windspeed.getD (.str "N/A")
  .display celsius fahrenheit wind_speed

/-- Embedding of HUD.update_weather (src/SafeNSound.py lines 108-131):
it calls get_weather_data with no try block, so a transport exception
propagates; otherwise `if weather_data:` selects the display branch for
a truthy (non-None, non-empty) body and the failure label otherwise. -/
def update_weather (wr : HttpResult) : Except String WeatherLabel :=
  match get_weather_data wr with
  | .error e => .error e
  | .ok weather_data =>
    .ok (match weather_data with
      | some b => if b.truthy then weather_display_of b else .failure
      | none => .failure)

/-- Embedding of HUD.update_airports (src/SafeNSound.py lines 134-145):
the label is rebuilt from find_nearest_airports with the default
num_airports = 5; the label contents are modelled as the returned list
itself (the code only formats it line by line). -/
def update_airports (dist : ℚ × ℚ → ℚ × ℚ → ℚ) (user_lat user_lon : ℚ)
    (airports : List Airport) : List (Airport × ℚ) :=
  find_nearest_airports dist user_lat user_lon airports 5

/-- The three Tkinter StringVar labels of the HUD; none is initialised
before the first update, so each is an Option. -/
structure HUDState where
  telemetry_label : Option TelemetryLabel
  weather_label : Option WeatherLabel
  airport_label : Option (List (Airport × ℚ))
deriving DecidableEq

/-- Embedding of one refresh cycle, the nested update() function of the
main block (src/SafeNSound.py lines 210-224). The three labels are
mutated in order; update_telemetry cannot raise (it catches everything),
but hud.update_weather is called with no handler, so a transport
exception from the weather fetch escapes the cycle after the telemetry
label was set and before the airport label is touched. The second
component of the result is the escaped exception, if any. -/
def update (dist : ℚ × ℚ → ℚ × ℚ → ℚ) (poll : Except String Telemetry)
    (wr : HttpResult) (user_lat user_lon : ℚ) (airports : List Airport)
    (s : HUDState) : HUDState × Option String :=
  let s1 := { s with telemetry_label := some (update_telemetry poll) }
  match update_weather wr with
  | .error e => (s1, some e)
  | .ok wl =>
    let s2 := { s1 with weather_label := some wl }
    let s3 := { s2 with airport_label := some (update_airports dist user_lat user_lon airports) }
    (s3, none)

/-- C2: if the telemetry poll raises with message e while the weather
fetch returns a 200 response with a truthy (non-empty) body, the cycle
completes without an escaped exception, the telemetry label records the
error message, and the weather and nearest-airports labels are both
populated from the successful calls. -/
theorem telemetry_failure_isolated (dist : ℚ × ℚ → ℚ × ℚ → ℚ) (e : String)
    (b : WeatherBody) (user_lat user_lon : ℚ) (airports : List Airport)
    (s : HUDState) (hb : b.truthy = true) :
    update dist (.error e) (.resp 200 b) user_lat user_lon airports s
      = ({ telemetry_label := some (.failure e),
           weather_label := some (weather_display_of b),
           airport_label := some (update_airports dist user_lat user_lon airports) }, none)
    ∧ ∃ cel fah wind, weather_display_of b = .display cel fah wind := by
  constructor
  · simp [update, update_weather, get_weather_data, update_telemetry, hb]
  · exact ⟨_, _, _, rfl⟩

/-- Witness for C2 at a concrete failing poll and a concrete 200
response. -/
theorem telemetry_failure_isolated_witness :
    (⟨some ⟨some (.num 20), some (.num 3)⟩, false⟩ : WeatherBody).truthy = true
    ∧ (update (fun _ _ => 0) (.error "link down")
          (.resp 200 ⟨some ⟨some (.num 20), some (.num 3)⟩, false⟩) 40 (-73)
          [⟨"Test Airfield", "TST", (40, -73)⟩] ⟨none, none, none⟩
        = ({ telemetry_label := some (.failure "link down"),
             weather_label := some (weather_display_of ⟨some ⟨some (.num 20), some (.num 3)⟩, false⟩),
             airport_label := some (update_airports (fun _ _ => 0) 40 (-73)
               [⟨"Test Airfield", "TST", (40, -73)⟩]) }, none)
      ∧ ∃ cel fah wind,
          weather_display_of (⟨some ⟨some (.num 20), some (.num 3)⟩, false⟩ : WeatherBody)
            = .display cel fah wind) :=
  ⟨by decide,
    telemetry_failure_isolated (fun _ _ => 0) "link down"
      ⟨some ⟨some (.num 20), some (.num 3)⟩, false⟩ 40 (-73)
      [⟨"Test Airfield", "TST", (40, -73)⟩] ⟨none, none, none⟩ (by decide)⟩

/-- C3 counterexample: when the weather fetch raises a transport-level
exception (not a non-200 status), the exception escapes update_weather
and aborts the cycle: starting from fresh labels, the weather label is
never set to any absent-with-reason value and the nearest-airports step
never runs. -/
theorem weather_transport_exception_aborts_cycle :
    update (fun _ _ => 0) (.ok ⟨40, -73, 100, 5, 90, "AUTO"⟩)
        (.exn "connection reset") 40 (-73)
        [⟨"Test Airfield", "TST", (40, -73)⟩] ⟨none, none, none⟩
      = ({ telemetry_label := some (.text ⟨40, -73, 100, 5, 90, "AUTO"⟩),
           weather_label := none,
           airport_label := none }, some "connection reset") := by
  rfl

/-- C3 amended: when the weather fetch fails with a non-200 status (the
only failure kind the code handles), the weather label records the
failure, the nearest-airports step still runs and populates its label,
and nothing escapes the cycle; a transport-level exception instead
escapes and aborts the remainder of the cycle. -/
theorem weather_nonsuccess_status_isolated (dist : ℚ × ℚ → ℚ × ℚ → ℚ)
    (poll : Except String Telemetry) (status : Int) (b : WeatherBody)
    (user_lat user_lon : ℚ) (airports : List Airport) (s : HUDState)
    (hstatus : status ≠ 200) :
    update dist poll (.resp status b) user_lat user_lon airports s
      = ({ telemetry_label := some (update_telemetry poll),
           weather_label := some .failure,
           airport_label := some (update_airports dist user_lat user_lon airports) }, none) := by
  simp [update, update_weather, get_weather_data, hstatus]

/-- Witness for the amended C3 at a concrete HTTP 500 response. -/
theorem weather_nonsuccess_status_isolated_witness :
    (500 : Int) ≠ 200
    ∧ update (fun _ _ => 0) (.ok ⟨40, -73, 100, 5, 90, "AUTO"⟩)
          (.resp 500 ⟨none, false⟩) 40 (-73)
          [⟨"Test Airfield", "TST", (40, -73)⟩] ⟨none, none, none⟩
        = ({ telemetry_label := some (update_telemetry (.ok ⟨40, -73, 100, 5, 90, "AUTO"⟩)),
             weather_label := some .failure,
             airport_label := some (update_airports (fun _ _ => 0) 40 (-73)
               [⟨"Test Airfield", "TST", (40, -73)⟩]) }, none) :=
  ⟨by decide,
    weather_nonsuccess_status_isolated (fun _ _ => 0) (.ok ⟨40, -73, 100, 5, 90, "AUTO"⟩)
      500 ⟨none, false⟩ 40 (-73) [⟨"Test Airfield", "TST", (40, -73)⟩]
      ⟨none, none, none⟩ (by decide)⟩

/-- Embedding of get_user_location (src/SafeNSound.py lines 17-29): on a
successful ipinfo.io request it returns the parsed coordinate pair; on
any exception it prints and returns the pair (None, None). -/
def get_user_location (resp : Except String (ℚ × ℚ)) : Option ℚ × Option ℚ :=
  match resp with
  | .ok loc => (some loc.1, some loc.2)
  | .error _ => (none, none)

/-- Python truthiness of an optional float, as applied to user_lat and
user_lon by the guard in the main block: None is falsy, and the float
0.0 is falsy as well. -/
def pyTruthyOptFloat : Option ℚ → Bool
  | none => false
  | some q => decide (q ≠ 0)

/-- Embedding of the startup guard in the main block (src/SafeNSound.py
lines 199-204): `if user_lat and user_lon:` — the engine proceeds to
cycling exactly when both components are truthy; otherwise it raises
"Unable to determine user's location." and never starts. -/
def startup_proceeds (loc : Option ℚ × Option ℚ) : Bool :=
  pyTruthyOptFloat loc.1 && pyTruthyOptFloat loc.2

/-- C7: the startup guard correctly refuses to start when location
resolution fails, and starts on a generic resolved coordinate, but a
successfully resolved legitimate coordinate with latitude 0.0 (equator)
is treated as falsy and makes startup fail — the latent truthiness bug
the specification flags. -/
theorem startup_rejects_zero_coordinate :
    startup_proceeds (get_user_location (.error "request failed")) = false
    ∧ startup_proceeds (get_user_location (.ok (40, -73))) = true
    ∧ startup_proceeds (get_user_location (.ok (0, 10))) = false := by
  decide

/-- C8 counterexample: a status-200 response whose body is the empty
JSON object is a successful response with the temperature field missing,
yet the code takes the whole-call failure path ("Failed to retrieve
weather data.") instead of displaying "N/A" fields, because the empty
dict is falsy. -/
theorem weather_empty_body_treated_as_failure :
    update_weather (.resp 200 ⟨none, false⟩) = .ok .failure := by
  rfl

/-- C8 amended: for every status-200 response whose body is a non-empty
JSON object, the weather call is treated as valid output — the display
branch is taken — and each missing numeric field (temperature, wind
speed) is shown as the string "N/A" rather than failing the whole call;
only a 200 response with an entirely empty body joins the
provider-unusable failure path. -/
theorem weather_missing_fields_shown_na (b : WeatherBody) (hb : b.truthy = true) :
    ∃ cel fah wind,
      update_weather (.resp 200 b) = .ok (.display cel fah wind)
      ∧ ((b.current_weather.getD ⟨none, none⟩).temperature = none → cel = .str "N/A")
      ∧ ((b.current_weather.getD ⟨none, none⟩).windspeed = none → wind = .str "N/A") := by
  refine ⟨(b.current_weather.getD ⟨none, none⟩).temperature.getD (.str "N/A"),
    (match (b.current_weather.getD ⟨none, none⟩).temperature.getD (.str "N/A") with
      | .num c => .num (c * 9 / 5 + 32)
      | .str _ => .str "N/A"),
    (b.current_weather.getD ⟨none, none⟩).windspeed.getD (.str "N/A"), ?_, ?_, ?_⟩
  · simp [update_weather, get_weather_data, hb, weather_display_of]
  · intro h; simp [h]
  · intro h; simp [h]

/-- Witness for the amended C8 at a concrete 200 response whose
current_weather dictionary is present but has no fields. -/
theorem weather_missing_fields_shown_na_witness :
    (⟨some ⟨none, none⟩, false⟩ : WeatherBody).truthy = true
    ∧ ∃ cel fah wind,
        update_weather (.resp 200 ⟨some ⟨none, none⟩, false⟩) = .ok (.display cel fah wind)
        ∧ (((⟨some ⟨none, none⟩, false⟩ : WeatherBody).current_weather.getD
              ⟨none, none⟩).temperature = none → cel = .str "N/A")
        ∧ (((⟨some ⟨none, none⟩, false⟩ : WeatherBody).current_weather.getD
              ⟨none, none⟩).windspeed = none → wind = .str "N/A") :=
  ⟨by decide, weather_missing_fields_shown_na ⟨some ⟨none, none⟩, false⟩ (by decide)⟩

/-- C10: when the 200 response carries a numeric current temperature c,
the displayed Fahrenheit value is exactly c * 9/5 + 32 (alongside the
windspeed field with its "N/A" default); and whenever the display branch
is taken with a non-numeric or missing Celsius value, the Fahrenheit
value is the string "N/A", never a computed number. -/
theorem fahrenheit_conversion (b : WeatherBody) (cw : CurrentWeather) (c : ℚ)
    (wr : HttpResult) (cel fah wind : JVal) :
    (b.current_weather = some cw → cw.temperature = some (.num c) →
      update_weather (.resp 200 b)
        = .ok (.display (.num c) (.num (c * 9 / 5 + 32)) (cw.windspeed.getD (.str "N/A"))))
    ∧ (update_weather wr = .ok (.display cel fah wind) →
        (∀ q : ℚ, cel ≠ .num q) → fah = .str "N/A") := by
  constructor
  · intro hcw htemp
    have hb : b.truthy = true := by simp [WeatherBody.truthy, hcw]
    simp [update_weather, get_weather_data, hb, weather_display_of, hcw, htemp]
  · intro hdisp hnonnum
    rcases wr with m | ⟨status, body⟩
    · simp [update_weather, get_weather_data] at hdisp
    · by_cases hs : status = 200
      · subst hs
        by_cases hb : body.truthy
        · rcases htemp : (body.current_weather.getD ⟨none, none⟩).temperature with _ | v
          · simp [update_weather, get_weather_data, weather_display_of, hb, htemp] at hdisp
            exact hdisp.2.1.symm
          · cases v with
            | num q =>
              simp [update_weather, get_weather_data, weather_display_of, hb, htemp] at hdisp
              exact absurd hdisp.1.symm (hnonnum q)
            | str t =>
              simp [update_weather, get_weather_data, weather_display_of, hb, htemp] at hdisp
              exact hdisp.2.1.symm
        · simp only [Bool.not_eq_true] at hb
          simp [update_weather, get_weather_data, hb] at hdisp
      · simp [update_weather, get_weather_data, hs] at hdisp

/-- Witness for C10: a numeric 25 °C response displays 77 °F, and a
response whose temperature is the string "N-A-value" displays "N/A" as
the Fahrenheit value. -/
theorem fahrenheit_conversion_witness :
    update_weather (.resp 200 ⟨some ⟨some (.num 25), some (.num 4)⟩, false⟩)
        = .ok (.display (.num 25) (.num (25 * 9 / 5 + 32))
            ((⟨some (.num 25), some (.num 4)⟩ : CurrentWeather).windspeed.getD (.str "N/A")))
    ∧ (JVal.str "N/A") = .str "N/A" := by
  constructor
  · exact (fahrenheit_conversion ⟨some ⟨some (.num 25), some (.num 4)⟩, false⟩
      ⟨some (.num 25), some (.num 4)⟩ 25 (.resp 200 ⟨some ⟨some (.num 25), some (.num 4)⟩, false⟩)
      (.num 25) (.num (25 * 9 / 5 + 32)) (.num 4)).1 rfl rfl
  · exact (fahrenheit_conversion ⟨some ⟨none, none⟩, false⟩ ⟨none, none⟩ 0
      (.resp 200 ⟨some ⟨none, none⟩, false⟩) (.str "N/A") (.str "N/A") (.str "N/A")).2
      rfl (fun q h => JVal.noConfusion h)

/-- Modelled from the spec: the program computes each airport distance
with the external geopy geodesic routine, whose implementation is not
part of this repository; the specification prescribes the algorithm as
the haversine great-circle formula on coordinates in degrees, with the
conventional mean Earth radius of 6371 km. -/
noncomputable def haversineKm (p q : ℚ × ℚ) : ℝ :=
  let phi1 := (p.1 : ℝ) * Real.pi / 180
  let phi2 := (q.1 : ℝ) * Real.pi / 180
  let dphi := ((q.1 - p.1 : ℚ) : ℝ) * Real.pi / 180
  let dlam := ((q.2 - p.2 : ℚ) : ℝ) * Real.pi / 180
  let a := Real.sin (dphi / 2) ^ 2 + Real.cos phi1 * Real.cos phi2 * Real.sin (dlam / 2) ^ 2
  2 * 6371 * Real.arcsin (Real.sqrt a)

/-- Numeric lower bound on sin(pi/9), via the quartic Taylor bound. -/
theorem sin_pi_div_nine_lo : (0.3412 : ℝ) ≤ Real.sin (Real.pi / 9) := by
  have hx_lo : (0.349065 : ℝ) ≤ Real.pi / 9 := by linarith [Real.pi_gt_d6]
  have hx_hi : Real.pi / 9 ≤ 0.3490659 := by linarith [Real.pi_lt_d6]
  have hx0 : (0 : ℝ) ≤ Real.pi / 9 := by linarith
  have habs : |Real.pi / 9| ≤ 1 := by
    rw [abs_of_nonneg hx0]; linarith
  have hsb := Real.sin_bound habs
  rw [abs_of_nonneg hx0] at hsb
  have h1 := abs_le.mp hsb
  have h3u : (Real.pi / 9) ^ 3 ≤ (0.3490659 : ℝ) ^ 3 := pow_le_pow_left₀ hx0 hx_hi 3
  have h4u : (Real.pi / 9) ^ 4 ≤ (0.3490659 : ℝ) ^ 4 := pow_le_pow_left₀ hx0 hx_hi 4
  nlinarith [h1.1, h3u, h4u, hx_lo]

/-- Numeric upper bound on sin(pi/9), via the quartic Taylor bound. -/
theorem sin_pi_div_nine_hi : Real.sin (Real.pi / 9) ≤ 0.34276 := by
  have hx_lo : (0.349065 : ℝ) ≤ Real.pi / 9 := by linarith [Real.pi_gt_d6]
  have hx_hi : Real.pi / 9 ≤ 0.3490659 := by linarith [Real.pi_lt_d6]
  have hx0 : (0 : ℝ) ≤ Real.pi / 9 := by linarith
  have habs : |Real.pi / 9| ≤ 1 := by
    rw [abs_of_nonneg hx0]; linarith
  have hsb := Real.sin_bound habs
  rw [abs_of_nonneg hx0] at hsb
  have h1 := abs_le.mp hsb
  have h3l : (0.349065 : ℝ) ^ 3 ≤ (Real.pi / 9) ^ 3 := pow_le_pow_left₀ (by norm_num) hx_lo 3
  have h4u : (Real.pi / 9) ^ 4 ≤ (0.3490659 : ℝ) ^ 4 := pow_le_pow_left₀ hx0 hx_hi 4
  nlinarith [h1.2, h3l, h4u, hx_hi]

/-- Numeric lower bound on cos(2 pi/9) = cos 40 degrees, via the
half-angle identity and the sin(pi/9) bounds. -/
theorem cos_two_pi_div_nine_lo : (0.765 : ℝ) ≤ Real.cos (2 * (Real.pi / 9)) := by
  have hcos_eq : Real.cos (2 * (Real.pi / 9)) = 1 - 2 * Real.sin (Real.pi / 9) ^ 2 := by
    rw [Real.cos_two_mul, Real.cos_sq']
    ring
  have hs0 : (0 : ℝ) ≤ Real.sin (Real.pi / 9) := le_trans (by norm_num) sin_pi_div_nine_lo
  have hsq_hi : Real.sin (Real.pi / 9) ^ 2 ≤ (0.34276 : ℝ) ^ 2 :=
    pow_le_pow_left₀ hs0 sin_pi_div_nine_hi 2
  rw [hcos_eq]
  nlinarith [hsq_hi]

/-- Numeric upper bound on cos(2 pi/9) = cos 40 degrees. -/
theorem cos_two_pi_div_nine_hi : Real.cos (2 * (Real.pi / 9)) ≤ 0.76717 := by
  have hcos_eq : Real.cos (2 * (Real.pi / 9)) = 1 - 2 * Real.sin (Real.pi / 9) ^ 2 := by
    rw [Real.cos_two_mul, Real.cos_sq']
    ring
  have hsq_lo : (0.3412 : ℝ) ^ 2 ≤ Real.sin (Real.pi / 9) ^ 2 :=
    pow_le_pow_left₀ (by norm_num) sin_pi_div_nine_lo 2
  rw [hcos_eq]
  nlinarith [hsq_lo]

/-- Numeric lower bound on sin(pi/3600), the half of the 0.1 degree
longitude delta in radians. -/
theorem sin_pi_div_threesixhund_lo : (0.00087266 : ℝ) ≤ Real.sin (Real.pi / 3600) := by
  have hz_lo : (0.0008726644 : ℝ) ≤ Real.pi / 3600 := by linarith [Real.pi_gt_d6]
  have hz_hi : Real.pi / 3600 ≤ 0.0008726648 := by linarith [Real.pi_lt_d6]
  have hz0 : (0 : ℝ) < Real.pi / 3600 := by linarith
  have hcube := Real.sin_gt_sub_cube hz0 (by linarith)
  have h3u : (Real.pi / 3600) ^ 3 ≤ (0.0008726648 : ℝ) ^ 3 :=
    pow_le_pow_left₀ (le_of_lt hz0) hz_hi 3
  nlinarith [hcube, h3u, hz_lo]

/-- Numeric upper bound on sin(pi/3600). -/
theorem sin_pi_div_threesixhund_hi : Real.sin (Real.pi / 3600) ≤ 0.0008726648 := by
  have hz_hi : Real.pi / 3600 ≤ 0.0008726648 := by linarith [Real.pi_lt_d6]
  have hz0 : (0 : ℝ) < Real.pi / 3600 := by
    have := Real.pi_gt_d6; linarith
  exact le_trans (le_of_lt (Real.sin_lt hz0)) hz_hi

/-- The product cos(2 pi/9) * sin(pi/3600) — the sine of half the
central angle of the C6 scenario — lies in [0.00066758, 0.00066949]. -/
theorem tst_half_angle_sine_bounds :
    (0.00066758 : ℝ) ≤ Real.cos (2 * (Real.pi / 9)) * Real.sin (Real.pi / 3600)
    ∧ Real.cos (2 * (Real.pi / 9)) * Real.sin (Real.pi / 3600) ≤ 0.00066949 := by
  have hc_lo := cos_two_pi_div_nine_lo
  have hc_hi := cos_two_pi_div_nine_hi
  have hs_lo := sin_pi_div_threesixhund_lo
  have hs_hi := sin_pi_div_threesixhund_hi
  have hs0 : (0 : ℝ) ≤ Real.sin (Real.pi / 3600) := le_trans (by norm_num) hs_lo
  constructor
  · have h := mul_le_mul hc_lo hs_lo (by norm_num) (le_trans (by norm_num) hc_lo)
    nlinarith [h]
  · have h := mul_le_mul hc_hi hs_hi hs0 (by norm_num)
    nlinarith [h]

/-- The arcsine of the C6 half-angle sine lies in [0.00066758, 0.0006695]. -/
theorem tst_arcsin_bounds :
    (0.00066758 : ℝ) ≤ Real.arcsin (Real.cos (2 * (Real.pi / 9)) * Real.sin (Real.pi / 3600))
    ∧ Real.arcsin (Real.cos (2 * (Real.pi / 9)) * Real.sin (Real.pi / 3600)) ≤ 0.0006695 := by
  have ht := tst_half_angle_sine_bounds
  have hpi2 : (0.0006695 : ℝ) ≤ Real.pi / 2 := by linarith [Real.pi_gt_d6]
  constructor
  · have hsin_l : Real.sin 0.00066758 ≤ Real.cos (2 * (Real.pi / 9)) * Real.sin (Real.pi / 3600) :=
      le_trans (le_of_lt (Real.sin_lt (by norm_num))) ht.1
    have hmono := Real.monotone_arcsin hsin_l
    rwa [Real.arcsin_sin (by linarith [Real.pi_gt_d6]) (by linarith [Real.pi_gt_d6])] at hmono
  · have hsin_u : Real.cos (2 * (Real.pi / 9)) * Real.sin (Real.pi / 3600) ≤ Real.sin 0.0006695 := by
      have hcube := Real.sin_gt_sub_cube (show (0:ℝ) < 0.0006695 by norm_num)
        (by norm_num)
      nlinarith [ht.2, hcube]
    have hmono := Real.monotone_arcsin hsin_u
    rwa [Real.arcsin_sin (by linarith [Real.pi_gt_d6]) hpi2] at hmono

/-- The haversine distance of the C6 scenario reduces to
12742 * arcsin(cos(2 pi/9) * sin(pi/3600)): the latitude delta is zero
and the longitude delta is 0.1 degrees. -/
theorem haversineKm_at_tst :
    haversineKm (40, -73.1) (40, -73)
      = 12742 * Real.arcsin (Real.cos (2 * (Real.pi / 9)) * Real.sin (Real.pi / 3600)) := by
  have hc0 : (0 : ℝ) ≤ Real.cos (2 * (Real.pi / 9)) :=
    le_trans (by norm_num) cos_two_pi_div_nine_lo
  have hs0 : (0 : ℝ) ≤ Real.sin (Real.pi / 3600) :=
    le_trans (by norm_num) sin_pi_div_threesixhund_lo
  simp only [haversineKm]
  have h1 : (((40 : ℚ) - (40 : ℚ) : ℚ) : ℝ) * Real.pi / 180 / 2 = 0 := by
    norm_num
  have h2 : ((((-73) : ℚ) - ((-73.1) : ℚ) : ℚ) : ℝ) * Real.pi / 180 / 2 = Real.pi / 3600 := by
    rw [show (((-73) : ℚ) - ((-73.1) : ℚ) : ℚ) = 1/10 by norm_num]
    push_cast
    ring
  have h3 : ((40 : ℚ) : ℝ) * Real.pi / 180 = 2 * (Real.pi / 9) := by
    push_cast
    ring
  rw [h1, h2, h3, Real.sin_zero]
  rw [show (0 : ℝ) ^ 2 + Real.cos (2 * (Real.pi / 9)) * Real.cos (2 * (Real.pi / 9))
        * Real.sin (Real.pi / 3600) ^ 2
      = (Real.cos (2 * (Real.pi / 9)) * Real.sin (Real.pi / 3600)) ^ 2 by ring]
  rw [Real.sqrt_sq (mul_nonneg hc0 hs0)]
  ring

/-- C6: on the single-airport dataset {Test Airfield, TST, (40, -73)}
with origin (40, -73.1) and k = 5, the nearest-airport query returns
exactly one entry — the TST airport — and the spec's haversine formula
gives its distance as approximately 8.5 km (strictly between 8.4 and
8.6; the true value is about 8.51 km). -/
theorem nearest_airport_single_tst_haversine :
    find_nearest_airports haversineKm 40 (-73.1) [⟨"Test Airfield", "TST", (40, -73)⟩] 5
      = [(⟨"Test Airfield", "TST", (40, -73)⟩, haversineKm (40, -73.1) (40, -73))]
    ∧ (8.4 : ℝ) < haversineKm (40, -73.1) (40, -73)
    ∧ haversineKm (40, -73.1) (40, -73) < 8.6 := by
  refine ⟨?_, ?_, ?_⟩
  · simp [find_nearest_airports, pySlice, List.mergeSort_singleton]
  · rw [haversineKm_at_tst]
    nlinarith [tst_arcsin_bounds.1]
  · rw [haversineKm_at_tst]
    nlinarith [tst_arcsin_bounds.2]
